import Mathlib

/-!
Shallow embedding of the wormhole-buddy VAA toolkit (src/src/common.rs,
src/src/vaa.rs, src/src/main.rs) and verification of its specification.

Conventions of the embedding:
* Rust byte values (u8) are modelled as `Nat`; byte buffers as `List Nat`.
* Rust strings are modelled as `List Char` (ASCII throughout this code base).
* A Rust function that can panic (indexing, `unwrap`, missing `HashMap` key)
  is modelled with result type `Except Panic α`, where `α` is the Rust
  return type; `Except.error (Panic.panic msg)` models process abort, while
  an `Except.ok` carrying a `Result`-style value models a returned value.
-/

deriving instance DecidableEq for Except

/-- Models a Rust panic (process abort). The message is informative only. -/
inductive Panic where
  | panic (msg : List Char)
deriving DecidableEq

/-- Chains used by this code base. `wormhole_sdk::Chain` has further named
variants plus `Unknown(u16)`; only equality on chain values matters here, so
the remaining variants are collapsed into `Other`. -/
inductive Chain where
  | Solana
  | Ethereum
  | Bsc
  | Polygon
  | Avalanche
  | Other (id : Nat)
deriving DecidableEq

/-- `CooChain` from src/src/common.rs: a wrapper enum around `Chain`. -/
inductive CooChain where
  | Inner (c : Chain)
deriving DecidableEq

/-- `EmitterType` from src/src/common.rs. `Address` carries a 32-byte array
`[u8; 32]`, modelled as a `List Nat` (length 32 at every construction site). -/
inductive EmitterType where
  | Unset
  | CoreBridge
  | TokenBridge
  | NftBridge
  | Address (a : List Nat)
deriving DecidableEq

/-- `hex::FromHexError` variants produced by `hex::decode`. -/
inductive FromHexError where
  | OddLength
  | InvalidHexCharacter (c : Char) (index : Nat)
deriving DecidableEq

/-- `CooError` from src/src/common.rs, restricted to the variants the
embedded functions can construct (the other variants wrap errors of external
libraries that never arise in the embedded code paths). -/
inductive CooError where
  | HexError (e : FromHexError)
  | ParseError (msg : List Char)
deriving DecidableEq

/-- `PayloadType` from src/src/common.rs. -/
inductive PayloadType where
  | SmartInfer
  | RawBytes
  | WormholeTokenTransfer
  | WormholeTokenTransferPayload
  | WormholeNftTransfer
  | WormholeAssetMeta
deriving DecidableEq

/-- One lower-case hex digit, as produced by `hex::encode`. -/
def hexDigitChar (n : Nat) : Char :=
  if n < 10 then Char.ofNat (48 + n) else Char.ofNat (87 + n)

/-- `hex::encode`: two lower-case hex digits per byte. -/
def hexEncode : List Nat → List Char
  | [] => []
  | b :: rest => hexDigitChar (b / 16) :: hexDigitChar (b % 16) :: hexEncode rest

/-- Value of one hex digit (upper or lower case), as accepted by
`hex::decode`. -/
def hexDigitVal (c : Char) : Option Nat :=
  if 48 ≤ c.toNat ∧ c.toNat ≤ 57 then some (c.toNat - 48)
  else if 97 ≤ c.toNat ∧ c.toNat ≤ 102 then some (c.toNat - 87)
  else if 65 ≤ c.toNat ∧ c.toNat ≤ 70 then some (c.toNat - 55)
  else none

/-- Pair-wise decoding loop of `hex::decode`; the index is used only for the
error report. The one-element case is unreachable once the even-length check
of `hexDecode` has passed. -/
def hexDecodePairs : List Char → Nat → Except FromHexError (List Nat)
  | [], _ => .ok []
  | [c], i => .error (.InvalidHexCharacter c i)
  | c1 :: c2 :: rest, i =>
    match hexDigitVal c1 with
    | none => .error (.InvalidHexCharacter c1 i)
    | some v1 =>
      match hexDigitVal c2 with
      | none => .error (.InvalidHexCharacter c2 (i + 1))
      | some v2 =>
        match hexDecodePairs rest (i + 2) with
        | .error e => .error e
        | .ok bs => .ok ((16 * v1 + v2) :: bs)

/-- `hex::decode`: rejects odd-length input with `OddLength`, otherwise
decodes hex digit pairs. -/
def hexDecode (cs : List Char) : Except FromHexError (List Nat) :=
  if cs.length % 2 ≠ 0 then .error .OddLength else hexDecodePairs cs 0

/-- `hextobytes` from src/src/common.rs: strips an optional leading `0x`,
then hex-decodes; a decode failure is returned as `CooError::HexError`. -/
def hextobytes (s : List Char) : Except CooError (List Nat) :=
  let s2 := if s.take 2 = ['0', 'x'] then s.drop 2 else s
  match hexDecode s2 with
  | .error e => .error (.HexError e)
  | .ok bs => .ok bs

/-- ASCII lower-casing of one character, the relevant fragment of Rust
`str::to_lowercase` (all strings in this code base are ASCII). -/
def toLowerChar (c : Char) : Char :=
  if 65 ≤ c.toNat ∧ c.toNat ≤ 90 then Char.ofNat (c.toNat + 32) else c

/-- `str::to_lowercase` on ASCII strings. -/
def strToLower (cs : List Char) : List Char := cs.map toLowerChar

/-- Rust `format!` with the `{:0>64}` spec: left-pads with the character `0`
to a minimum width of 64. -/
def pad64 (cs : List Char) : List Char :=
  List.replicate (64 - cs.length) '0' ++ cs

/-- The `EMITTERS` table from src/src/common.rs, in source order. In the
source it is a `HashMap`; it is modelled as an association list. Note the
Avalanche/TokenBridge value is 39 characters long (odd). -/
def EMITTERS : List ((CooChain × EmitterType) × List Char) :=
  [ ((.Inner .Ethereum, .CoreBridge), "98f3c9e6E3fAce36bAAd05FE09d375Ef1464288B".data),
    ((.Inner .Ethereum, .TokenBridge), "3ee18B2214AFF97000D974cf647E7C347E8fa585".data),
    ((.Inner .Ethereum, .NftBridge), "6FFd7EdE62328b3Af38FCD61461Bbfc52F5651fE".data),
    ((.Inner .Avalanche, .CoreBridge), "54a8e5f9c4CbA08F9943965859F6c34eAF03E26c".data),
    ((.Inner .Avalanche, .TokenBridge), "e082f06ff657d94310cb8ce8b0d9a04541d8052".data),
    ((.Inner .Avalanche, .NftBridge), "f7B6737Ca9c4e08aE573F75A97B73D7a813f5De5".data) ]

/-- `HashMap` key lookup in `EMITTERS` (the keys are pairwise distinct, so
the list model agrees with the hash map). -/
def emittersLookup (k : CooChain × EmitterType) : Option (List Char) :=
  (EMITTERS.find? (fun kv => decide (kv.1 = k))).map (fun kv => kv.2)

/-- `resolve_emitter_address` from src/src/common.rs. The `EMITTERS[&...]`
indexing panics when the key is absent, modelled by the outer `Except Panic`;
all other failures are returned as `Err` values. -/
def resolve_emitter_address (chain : CooChain) (emitter : EmitterType) :
    Except Panic (Except CooError (List Char)) :=
  match emitter with
  | .Unset => .ok (.error (.ParseError "Unset emitter type".data))
  | .CoreBridge | .TokenBridge | .NftBridge =>
    match emittersLookup (chain, emitter) with
    | none => .error (.panic "key not found in EMITTERS".data)
    | some contract_string =>
      match hextobytes contract_string with
      | .error e => .ok (.error e)
      | .ok contract_address => .ok (.ok (pad64 (hexEncode contract_address)))
  | .Address a => .ok (.ok (hexEncode a))

/-- `impl From<&str> for EmitterType` from src/src/common.rs (named `fromStr`
because `from` is a Lean keyword). The `.unwrap()` on the hex decode result
panics on invalid hex; a decoded value longer than 32 bytes panics at the
`32 - decoded.len()` / slice-copy step. -/
def EmitterType.fromStr (s : List Char) : Except Panic EmitterType :=
  if s = [] then .ok .Unset
  else if s = "core".data then .ok .CoreBridge
  else if s = "token".data then .ok .TokenBridge
  else if s = "nft".data then .ok .NftBridge
  else
    match hextobytes s with
    | .error _ => .error (.panic "called unwrap on an Err value".data)
    | .ok decoded =>
      if decoded.length ≤ 32 then
        .ok (.Address (List.replicate (32 - decoded.length) 0 ++ decoded))
      else .error (.panic "slice index out of range".data)

/-- `bytestohex` from src/src/common.rs: counts leading zero bytes, then hex
encodes the remainder after the prefix of zero bytes, prefixed by `0x`. -/
def bytestohex (s : List Nat) : List Char :=
  '0' :: 'x' :: hexEncode (s.drop (s.takeWhile (fun b => decide (b = 0))).length)

/-- The emitter-address match of the smart-infer branch of `cli_vaa_decode`
(src/src/main.rs lines 194-201): find the first `EMITTERS` entry whose value,
left-padded with the character `0` to 64 and lower-cased, equals the given
(lower-case hex) emitter address string. Only the address string is compared;
the chain component of the key is never consulted. The `HashMap` iteration
order of the source is arbitrary, but the six padded value strings are
pairwise distinct, so at most one entry can match and the list order used
here is immaterial. -/
def emitterEntryFor (emitter_address_hex : List Char) :
    Option ((CooChain × EmitterType) × List Char) :=
  EMITTERS.find? (fun kv => decide (emitter_address_hex = strToLower (pad64 kv.2)))

/-- The `PayloadType::SmartInfer` inference of `cli_vaa_decode`
(src/src/main.rs lines 186-236). `emitter_chain` is in scope in the source
(the whole `vaa` is) but is never read: matching is by emitter address only.
`payload[0]` on an empty payload is an index-out-of-bounds panic. The
`unreachable!` arms for `Unset` and `Address` keys are panics as well (they
are dead for the concrete `EMITTERS` table). -/
def smart_infer (emitter_chain : CooChain) (emitter_address : List Nat)
    (payload : List Nat) : Except Panic PayloadType :=
  let ea := strToLower (hexEncode emitter_address)
  match emitterEntryFor ea with
  | none => .ok .RawBytes
  | some kv =>
    match kv.1.2 with
    | .Unset => .error (.panic "internal error: entered unreachable code".data)
    | .Address _ => .error (.panic "internal error: entered unreachable code".data)
    | .TokenBridge =>
      match payload with
      | [] => .error (.panic "index out of bounds".data)
      | b :: _ =>
        .ok (if b = 1 then .WormholeTokenTransfer
             else if b = 2 then .WormholeAssetMeta
             else if b = 3 then .WormholeTokenTransferPayload
             else .RawBytes)
    | .NftBridge =>
      match payload with
      | [] => .error (.panic "index out of bounds".data)
      | b :: _ => .ok (if b = 1 then .WormholeNftTransfer else .RawBytes)
    | .CoreBridge => .ok .RawBytes

/-- Role of the unique `EMITTERS` entry (if any) whose padded lower-case
value string equals the hex encoding of the given 32-byte emitter address;
used to state what the address-only matching of `smart_infer` selects. -/
def registryRole (emitter_address : List Nat) : Option EmitterType :=
  (emitterEntryFor (strToLower (hexEncode emitter_address))).map (fun kv => kv.1.2)

/-- The 32-byte emitter address whose canonical (64 hex character) form
corresponds to a registry value string: decode the value left-padded with the
character `0` to 64. Helper for stating concrete classification facts. -/
def padded_address_bytes (s : List Char) : List Nat :=
  match hexDecode (strToLower (pad64 s)) with
  | .ok bs => bs
  | .error _ => []

/-- Big-endian value of a byte sequence. -/
def beNat (bs : List Nat) : Nat := bs.foldl (fun acc b => 256 * acc + b) 0

/-- Splits off exactly `n` leading bytes, or fails. -/
def takeExact (n : Nat) (bs : List Nat) : Option (List Nat × List Nat) :=
  if n ≤ bs.length then some (bs.take n, bs.drop n) else none

/-- A guardian signature of the VAA header: a one-byte guardian index and a
65-byte signature. -/
structure VaaSignature where
  index : Nat
  sigBytes : List Nat
deriving DecidableEq

/-- A parsed VAA (header and body). -/
structure Vaa where
  version : Nat
  guardian_set_index : Nat
  signatures : List VaaSignature
  timestamp : Nat
  nonce : Nat
  emitter_chain : Nat
  emitter_address : List Nat
  sequence : Nat
  consistency_level : Nat
  payload : List Nat
deriving DecidableEq

/-- VAA parse errors named by the specification. -/
inductive VaaError where
  | TruncatedVaa
  | MalformedVaa
deriving DecidableEq

/-- Reads `n` guardian signatures, each a 1-byte index and 65 signature
bytes; fails when the buffer runs out. -/
def readSignatures : Nat → List Nat → Option (List VaaSignature × List Nat)
  | 0, bs => some ([], bs)
  | n + 1, bs =>
    match takeExact 1 bs with
    | none => none
    | some (i, bs1) =>
      match takeExact 65 bs1 with
      | none => none
      | some (sg, bs2) =>
        match readSignatures n bs2 with
        | none => none
        | some (sigs, bs3) => some (⟨beNat i, sg⟩ :: sigs, bs3)

/-- Modelled from the spec: the byte-level VAA deserializer lives in the
`serde_wormhole` dependency (src/src/vaa.rs `parse_vaa` merely delegates to
`serde_wormhole::from_slice`), so it is modelled from the wire layout of
spec section 4.2: big-endian, no padding; `u8 version` (must be 1, else
`MalformedVaa`), `u32 guardian_set_index`, `u8 signature_count`, that many
66-byte signatures, `u32 timestamp`, `u32 nonce`, `u16 emitter_chain`,
32-byte emitter address, `u64 sequence`, `u8 consistency_level`, and all
remaining bytes as the payload; any read past the end is `TruncatedVaa`. -/
def parse_vaa (bs : List Nat) : Except VaaError Vaa :=
  match takeExact 1 bs with
  | none => .error .TruncatedVaa
  | some (v, bs1) =>
    if beNat v ≠ 1 then .error .MalformedVaa
    else
      match takeExact 4 bs1 with
      | none => .error .TruncatedVaa
      | some (gsi, bs2) =>
        match takeExact 1 bs2 with
        | none => .error .TruncatedVaa
        | some (cnt, bs3) =>
          match readSignatures (beNat cnt) bs3 with
          | none => .error .TruncatedVaa
          | some (sigs, bs4) =>
            match takeExact 4 bs4 with
            | none => .error .TruncatedVaa
            | some (ts, bs5) =>
              match takeExact 4 bs5 with
              | none => .error .TruncatedVaa
              | some (nc, bs6) =>
                match takeExact 2 bs6 with
                | none => .error .TruncatedVaa
                | some (ec, bs7) =>
                  match takeExact 32 bs7 with
                  | none => .error .TruncatedVaa
                  | some (ea, bs8) =>
                    match takeExact 8 bs8 with
                    | none => .error .TruncatedVaa
                    | some (sq, bs9) =>
                      match takeExact 1 bs9 with
                      | none => .error .TruncatedVaa
                      | some (cl, bs10) =>
                        .ok ⟨beNat v, beNat gsi, sigs, beNat ts, beNat nc,
                             beNat ec, ea, beNat sq, beNat cl, bs10⟩

/-- Payload deserialization errors named by the specification. The spec does
not name the unknown-discriminant and trailing-bytes cases (the serde
deserializer rejects unknown enum tags and unconsumed input); they are given
their own constructors so that no failure is conflated with another. -/
inductive PayloadDeserError where
  | TruncatedPayload
  | InvalidUtf8
  | InvalidDiscriminant (b : Nat)
  | TrailingBytes
deriving DecidableEq

/-- UTF-8 validation automaton: state 0 expects a start byte; states 1-3
expect that many plain continuation bytes; states 4-7 are the constrained
second-byte states after `E0`, `ED`, `F0`, `F4` (excluding overlong forms
and surrogates). -/
def utf8Step : Nat → Nat → Option Nat
  | 0, b =>
    if b ≤ 0x7F then some 0
    else if 0xC2 ≤ b ∧ b ≤ 0xDF then some 1
    else if b = 0xE0 then some 4
    else if (0xE1 ≤ b ∧ b ≤ 0xEC) ∨ b = 0xEE ∨ b = 0xEF then some 2
    else if b = 0xED then some 5
    else if b = 0xF0 then some 6
    else if 0xF1 ≤ b ∧ b ≤ 0xF3 then some 3
    else if b = 0xF4 then some 7
    else none
  | 1, b => if 0x80 ≤ b ∧ b ≤ 0xBF then some 0 else none
  | 2, b => if 0x80 ≤ b ∧ b ≤ 0xBF then some 1 else none
  | 3, b => if 0x80 ≤ b ∧ b ≤ 0xBF then some 2 else none
  | 4, b => if 0xA0 ≤ b ∧ b ≤ 0xBF then some 1 else none
  | 5, b => if 0x80 ≤ b ∧ b ≤ 0x9F then some 1 else none
  | 6, b => if 0x90 ≤ b ∧ b ≤ 0xBF then some 2 else none
  | 7, b => if 0x80 ≤ b ∧ b ≤ 0x8F then some 2 else none
  | _ + 8, _ => none

/-- Runs the UTF-8 automaton over a byte sequence. -/
def utf8Run : Nat → List Nat → Option Nat
  | st, [] => some st
  | st, b :: rest =>
    match utf8Step st b with
    | none => none
    | some st2 => utf8Run st2 rest

/-- A byte sequence is valid UTF-8 when the automaton accepts it and ends
outside a multi-byte sequence. -/
def validUtf8 (bs : List Nat) : Bool := utf8Run 0 bs == some 0

/-- Strips the trailing zero-byte padding of a fixed 32-byte text slot. -/
def stripTrailingZeros (bs : List Nat) : List Nat :=
  (bs.reverse.dropWhile (fun b => decide (b = 0))).reverse

/-- `wormhole_sdk::token::Message`: text fields are kept as their decoded
byte sequences (UTF-8 validity is checked by the deserializer); chain ids as
numbers; 32-byte quantities as byte sequences. -/
inductive TokenMessage where
  | Transfer (amount : List Nat) (token_address : List Nat) (token_chain : Nat)
      (recipient : List Nat) (recipient_chain : Nat) (fee : List Nat)
  | AssetMeta (token_address : List Nat) (token_chain : Nat) (decimals : Nat)
      (symbol : List Nat) (name : List Nat)
  | TransferWithPayload (amount : List Nat) (token_address : List Nat)
      (token_chain : Nat) (recipient : List Nat) (recipient_chain : Nat)
      (sender_address : List Nat) (payload : List Nat)
deriving DecidableEq

/-- `wormhole_sdk::nft::Message` (the destination field is named `to` in the
source; `to` is a reserved token in Lean, so it is `toAddress` here). -/
inductive NftMessage where
  | Transfer (nft_address : List Nat) (nft_chain : Nat) (symbol : List Nat)
      (name : List Nat) (token_id : List Nat) (uri : List Nat)
      (toAddress : List Nat) (to_chain : Nat)
deriving DecidableEq

/-- Modelled from the spec: the token payload deserializer lives in the
`serde_wormhole`/`wormhole_sdk` dependencies, so it is modelled from the
layouts of spec section 4.4. Discriminant 1 = Transfer (101 bytes exactly),
2 = AssetMeta (100 bytes exactly; `symbol` and `name` are 32-byte zero-padded
UTF-8 slots, trailing zeros stripped and UTF-8 validated), 3 =
TransferWithPayload (at least 133 bytes; the trailing bytes are the
application payload). Insufficient bytes for a fixed field is
`TruncatedPayload`. -/
def deserialize_token_message (payload : List Nat) :
    Except PayloadDeserError TokenMessage :=
  match takeExact 1 payload with
  | none => .error .TruncatedPayload
  | some (d, r0) =>
    if beNat d = 1 then
      match takeExact 32 r0 with
      | none => .error .TruncatedPayload
      | some (amount, r1) =>
        match takeExact 32 r1 with
        | none => .error .TruncatedPayload
        | some (token_address, r2) =>
          match takeExact 2 r2 with
          | none => .error .TruncatedPayload
          | some (token_chain, r3) =>
            match takeExact 32 r3 with
            | none => .error .TruncatedPayload
            | some (recipient, r4) =>
              match takeExact 2 r4 with
              | none => .error .TruncatedPayload
              | some (recipient_chain, r5) =>
                match takeExact 32 r5 with
                | none => .error .TruncatedPayload
                | some (fee, r6) =>
                  if r6 = [] then
                    .ok (.Transfer amount token_address (beNat token_chain)
                         recipient (beNat recipient_chain) fee)
                  else .error .TrailingBytes
    else if beNat d = 2 then
      match takeExact 32 r0 with
      | none => .error .TruncatedPayload
      | some (token_address, r1) =>
        match takeExact 2 r1 with
        | none => .error .TruncatedPayload
        | some (token_chain, r2) =>
          match takeExact 1 r2 with
          | none => .error .TruncatedPayload
          | some (decimals, r3) =>
            match takeExact 32 r3 with
            | none => .error .TruncatedPayload
            | some (symbolRaw, r4) =>
              match takeExact 32 r4 with
              | none => .error .TruncatedPayload
              | some (nameRaw, r5) =>
                if r5 = [] then
                  let symbol := stripTrailingZeros symbolRaw
                  let nm := stripTrailingZeros nameRaw
                  if validUtf8 symbol ∧ validUtf8 nm then
                    .ok (.AssetMeta token_address (beNat token_chain)
                         (beNat decimals) symbol nm)
                  else .error .InvalidUtf8
                else .error .TrailingBytes
    else if beNat d = 3 then
      match takeExact 32 r0 with
      | none => .error .TruncatedPayload
      | some (amount, r1) =>
        match takeExact 32 r1 with
        | none => .error .TruncatedPayload
        | some (token_address, r2) =>
          match takeExact 2 r2 with
          | none => .error .TruncatedPayload
          | some (token_chain, r3) =>
            match takeExact 32 r3 with
            | none => .error .TruncatedPayload
            | some (recipient, r4) =>
              match takeExact 2 r4 with
              | none => .error .TruncatedPayload
              | some (recipient_chain, r5) =>
                match takeExact 32 r5 with
                | none => .error .TruncatedPayload
                | some (sender_address, r6) =>
                  .ok (.TransferWithPayload amount token_address
                       (beNat token_chain) recipient (beNat recipient_chain)
                       sender_address r6)
    else .error (.InvalidDiscriminant (beNat d))

/-- Modelled from the spec: the NFT payload deserializer (spec section 4.4).
Discriminant 1 = Transfer: 32-byte nft_address, u16 nft_chain, 32-byte
zero-padded UTF-8 symbol and name slots, 32-byte token_id, `u8 uri_len`,
`uri_len` bytes of unpadded UTF-8 uri, 32-byte destination address, u16
destination chain; exact length. -/
def deserialize_nft_message (payload : List Nat) :
    Except PayloadDeserError NftMessage :=
  match takeExact 1 payload with
  | none => .error .TruncatedPayload
  | some (d, r0) =>
    if beNat d = 1 then
      match takeExact 32 r0 with
      | none => .error .TruncatedPayload
      | some (nft_address, r1) =>
        match takeExact 2 r1 with
        | none => .error .TruncatedPayload
        | some (nft_chain, r2) =>
          match takeExact 32 r2 with
          | none => .error .TruncatedPayload
          | some (symbolRaw, r3) =>
            match takeExact 32 r3 with
            | none => .error .TruncatedPayload
            | some (nameRaw, r4) =>
              match takeExact 32 r4 with
              | none => .error .TruncatedPayload
              | some (token_id, r5) =>
                match takeExact 1 r5 with
                | none => .error .TruncatedPayload
                | some (uriLen, r6) =>
                  match takeExact (beNat uriLen) r6 with
                  | none => .error .TruncatedPayload
                  | some (uri, r7) =>
                    match takeExact 32 r7 with
                    | none => .error .TruncatedPayload
                    | some (toAddr, r8) =>
                      match takeExact 2 r8 with
                      | none => .error .TruncatedPayload
                      | some (toChain, r9) =>
                        if r9 = [] then
                          let symbol := stripTrailingZeros symbolRaw
                          let nm := stripTrailingZeros nameRaw
                          if validUtf8 symbol ∧ validUtf8 nm ∧ validUtf8 uri then
                            .ok (.Transfer nft_address (beNat nft_chain) symbol
                                 nm token_id uri toAddr (beNat toChain))
                          else .error .InvalidUtf8
                        else .error .TrailingBytes
    else .error (.InvalidDiscriminant (beNat d))

/-- `decode_wormhole_token` from src/src/vaa.rs, as a function of the VAA
payload bytes (the source takes the whole `Vaa` and reads only `vaa.payload`).
The `.unwrap()` on the deserialization result turns every deserialization
error into a panic, so the `Result` return type can never carry an `Err`. -/
def decode_wormhole_token (payload : List Nat) :
    Except Panic (Except CooError TokenMessage) :=
  match deserialize_token_message payload with
  | .error _ => .error (.panic "called unwrap on an Err value".data)
  | .ok m => .ok (.ok m)

/-- `decode_wormhole_nft` from src/src/vaa.rs; same `.unwrap()` pattern as
`decode_wormhole_token`. -/
def decode_wormhole_nft (payload : List Nat) :
    Except Panic (Except CooError NftMessage) :=
  match deserialize_nft_message payload with
  | .error _ => .error (.panic "called unwrap on an Err value".data)
  | .ok m => .ok (.ok m)


/-- C1: the claim states `resolve_emitter_address(Avalanche, TokenBridge)`
succeeds with the 63-character string below. In the code the registry value
for that pair is a 39-character (odd length) hex string, so `hex::decode`
fails with `OddLength` and the function returns that error instead — the
repository's own tests (src/src/vaa.rs `test_get_query_url`,
`test_query_guardian`) expect the resolution to succeed, so this is a bug in
the registry constant. -/
theorem resolve_avalanche_token_bridge_fails_odd_length :
    resolve_emitter_address (.Inner .Avalanche) .TokenBridge
      = .ok (.error (.HexError .OddLength)) ∧
    resolve_emitter_address (.Inner .Avalanche) .TokenBridge
      ≠ .ok (.ok ("000000000000000000000000e082f06ff657d94310cb8ce8b0d9a04541d8052".data)) := by
  decide

/-- C2: the claim quantifies over every pair present in the registry; the
pair (Avalanche, TokenBridge) is present, yet resolution returns a hex
decode error rather than a 64-character padded string, because the stored
value has 39 (odd) characters. For well-formed entries such as
(Ethereum, TokenBridge) the claimed 24-zeros + 40-hex-chars shape does
hold, as the last conjunct shows. -/
theorem registry_avalanche_token_entry_breaks_padding_property :
    (EMITTERS.find? (fun kv =>
        decide (kv.1 = (CooChain.Inner .Avalanche, EmitterType.TokenBridge)))).isSome = true ∧
    resolve_emitter_address (.Inner .Avalanche) .TokenBridge
      = .ok (.error (.HexError .OddLength)) ∧
    resolve_emitter_address (.Inner .Ethereum) .TokenBridge
      = .ok (.ok (("000000000000000000000000" ++ "3ee18b2214aff97000d974cf647e7c347e8fa585").data)) := by
  decide

/-- C3: for each registered TokenBridge and NftBridge deployment, classifying
an empty payload does not produce an `EmptyPayload` error result (no such
error exists in the code); it aborts with an index-out-of-bounds panic at
`payload[0]` (src/src/main.rs lines 209 and 220). -/
theorem classify_empty_payload_panics :
    smart_infer (.Inner .Ethereum)
        (padded_address_bytes ("3ee18B2214AFF97000D974cf647E7C347E8fa585".data)) []
      = .error (.panic "index out of bounds".data) ∧
    smart_infer (.Inner .Ethereum)
        (padded_address_bytes ("6FFd7EdE62328b3Af38FCD61461Bbfc52F5651fE".data)) []
      = .error (.panic "index out of bounds".data) ∧
    smart_infer (.Inner .Avalanche)
        (padded_address_bytes ("e082f06ff657d94310cb8ce8b0d9a04541d8052".data)) []
      = .error (.panic "index out of bounds".data) ∧
    smart_infer (.Inner .Avalanche)
        (padded_address_bytes ("f7B6737Ca9c4e08aE573F75A97B73D7a813f5De5".data)) []
      = .error (.panic "index out of bounds".data) := by
  decide

/-- C4: a one-byte payload `[1]` selects the TokenTransfer (resp.
NftTransfer) layout and is insufficient for the next fixed field, so the
deserializer reports `TruncatedPayload`; but `decode_wormhole_token` and
`decode_wormhole_nft` (src/src/vaa.rs lines 45 and 50) `.unwrap()` that
result, so the program aborts with a panic instead of returning the error. -/
theorem decode_truncated_payload_panics :
    deserialize_token_message [1] = .error .TruncatedPayload ∧
    decode_wormhole_token [1] = .error (.panic "called unwrap on an Err value".data) ∧
    deserialize_nft_message [1] = .error .TruncatedPayload ∧
    decode_wormhole_nft [1] = .error (.panic "called unwrap on an Err value".data) := by
  decide

/-- C5: for role `Unset` the function does return an explicit error result
(`ParseError`, the code's counterpart of the spec's `UnknownEmitter`); but
for a (chain, role) pair absent from the table — here (Solana, TokenBridge) —
the `EMITTERS[&(chain, emitter)]` indexing panics on the missing key instead
of returning an error result. -/
theorem resolve_missing_registry_pair_panics :
    resolve_emitter_address (.Inner .Solana) .TokenBridge
      = .error (.panic "key not found in EMITTERS".data) ∧
    resolve_emitter_address (.Inner .Ethereum) .Unset
      = .ok (.error (.ParseError "Unset emitter type".data)) := by
  decide

/-- C6 counterexample: on the non-hex string "zz" the conversion does not
return a `HexDecodeError` result; the `.unwrap()` in
`impl From<&str> for EmitterType` (src/src/common.rs line 52) panics. -/
theorem emitter_from_invalid_hex_panics :
    hextobytes ("zz".data) = .error (.HexError (.InvalidHexCharacter 'z' 0)) ∧
    EmitterType.fromStr ("zz".data) = .error (.panic "called unwrap on an Err value".data) := by
  decide

/-- C7 counterexample: no deployment is registered for chain Solana, so per
the claim an emitter with chain Solana must classify as RawBytes for any
address; but the code matches on the address alone, so a Solana emitter
whose 32-byte address equals the padded Ethereum TokenBridge address
classifies payload `[1]` as a token transfer. -/
theorem classify_ignores_emitter_chain :
    EMITTERS.all (fun kv => decide (kv.1.1 ≠ CooChain.Inner .Solana)) = true ∧
    smart_infer (.Inner .Solana)
        (padded_address_bytes ("3ee18B2214AFF97000D974cf647E7C347E8fa585".data)) [1]
      = .ok .WormholeTokenTransfer ∧
    PayloadType.WormholeTokenTransfer ≠ PayloadType.RawBytes := by
  decide

/-- C8 counterexample: the one-byte buffer `[2]` is shorter than the 6-byte
minimum header, yet parsing fails with `MalformedVaa` (the version byte is
read first and is not 1), not with `TruncatedVaa` as the claim states for
every short buffer. -/
theorem parse_vaa_bad_version_short_buffer :
    ([2] : List Nat).length < 6 ∧
    parse_vaa [2] = .error .MalformedVaa ∧
    VaaError.MalformedVaa ≠ VaaError.TruncatedVaa := by
  decide

/-- C9: for an `ExplicitAddress` emitter, resolution always succeeds with
exactly the hex encoding of the 32 bytes, for every chain, and the result
does not depend on the chain (no registry lookup is reachable in this
branch). -/
theorem resolve_explicit_address_identity (chain chain2 : CooChain)
    (a : List Nat) (h : a.length = 32) :
    resolve_emitter_address chain (.Address a) = .ok (.ok (hexEncode a)) ∧
    resolve_emitter_address chain (.Address a)
      = resolve_emitter_address chain2 (.Address a) :=
  ⟨rfl, rfl⟩

/-- Witness for C9 at the all-zero 32-byte address and two distinct chains. -/
theorem resolve_explicit_address_identity_instance :
    resolve_emitter_address (.Inner .Ethereum) (.Address (List.replicate 32 0))
      = .ok (.ok (hexEncode (List.replicate 32 0))) ∧
    resolve_emitter_address (.Inner .Ethereum) (.Address (List.replicate 32 0))
      = resolve_emitter_address (.Inner .Solana) (.Address (List.replicate 32 0)) :=
  resolve_explicit_address_identity _ _ _ (by decide)

/-- C10: on an input consisting entirely of zero bytes, every byte is
stripped as a leading zero and `bytestohex` returns the bare prefix `0x`
with no digits. -/
theorem bytestohex_all_zero (s : List Nat) (h : ∀ b ∈ s, b = 0) :
    bytestohex s = ('0' :: 'x' :: []) := by
  have ht : s.takeWhile (fun b => decide (b = 0)) = s :=
    List.takeWhile_eq_self_iff.mpr (fun x hx => by simp [h x hx])
  simp [bytestohex, ht, List.drop_length, hexEncode]

/-- Witness for C10 at a 32-byte zero amount. -/
theorem bytestohex_all_zero_instance :
    bytestohex (List.replicate 32 0) = ('0' :: 'x' :: []) :=
  bytestohex_all_zero _ (by simp)

/-- C6 amended: the parsing map is as claimed (empty string, the three
literal role tokens, otherwise hex decoding with optional `0x` prefix and
right-alignment into a zero-filled 32-byte buffer), but a string that is not
valid hex makes the conversion panic through `.unwrap()` rather than return
a `HexDecodeError` result (the infallible `From` trait has no error
channel). -/
theorem emitter_fromStr_characterization :
    EmitterType.fromStr [] = .ok .Unset ∧
    EmitterType.fromStr ("core".data) = .ok .CoreBridge ∧
    EmitterType.fromStr ("token".data) = .ok .TokenBridge ∧
    EmitterType.fromStr ("nft".data) = .ok .NftBridge ∧
    (∀ (s : List Char) (d : List Nat),
      s ≠ [] → s ≠ "core".data → s ≠ "token".data → s ≠ "nft".data →
      hextobytes s = .ok d → d.length ≤ 32 →
      EmitterType.fromStr s
        = .ok (.Address (List.replicate (32 - d.length) 0 ++ d))) ∧
    (∀ (s : List Char) (e : CooError),
      s ≠ [] → s ≠ "core".data → s ≠ "token".data → s ≠ "nft".data →
      hextobytes s = .error e →
      EmitterType.fromStr s
        = .error (.panic ("called unwrap on an Err value".data))) := by
  refine ⟨by decide, by decide, by decide, by decide, ?_, ?_⟩
  · intro s d h1 h2 h3 h4 hhex hlen
    unfold EmitterType.fromStr
    rw [if_neg h1, if_neg h2, if_neg h3, if_neg h4, hhex]
    simp [hlen]
  · intro s e h1 h2 h3 h4 hhex
    unfold EmitterType.fromStr
    rw [if_neg h1, if_neg h2, if_neg h3, if_neg h4, hhex]

/-- Witness for C6 amended: a valid-hex string becomes a right-aligned
explicit address; the invalid-hex string "zz" panics. -/
theorem emitter_fromStr_characterization_instance :
    EmitterType.fromStr ("0x0001".data)
      = .ok (.Address (List.replicate 30 0 ++ [0, 1])) ∧
    EmitterType.fromStr ("zz".data)
      = .error (.panic ("called unwrap on an Err value".data)) := by
  constructor
  · exact emitter_fromStr_characterization.2.2.2.2.1 ("0x0001".data) [0, 1]
      (by decide) (by decide) (by decide) (by decide) (by decide) (by decide)
  · exact emitter_fromStr_characterization.2.2.2.2.2 ("zz".data)
      (.HexError (.InvalidHexCharacter 'z' 0))
      (by decide) (by decide) (by decide) (by decide) (by decide)

/-- C7 amended: for a non-empty payload the classification is total and
deterministic, but the registry match is by emitter address only — the
emitter chain is never consulted: no address match gives RawBytes, a
CoreBridge address gives RawBytes, a TokenBridge address dispatches on the
first payload byte (1, 2, 3, otherwise RawBytes), and an NftBridge address
maps first byte 1 to the NFT transfer and everything else to RawBytes. -/
theorem classify_address_only_characterization (chain : CooChain)
    (a : List Nat) (b : Nat) (rest : List Nat) :
    (∀ chain2 : CooChain,
      smart_infer chain a (b :: rest) = smart_infer chain2 a (b :: rest)) ∧
    (registryRole a = none →
      smart_infer chain a (b :: rest) = .ok .RawBytes) ∧
    (registryRole a = some .CoreBridge →
      smart_infer chain a (b :: rest) = .ok .RawBytes) ∧
    (registryRole a = some .TokenBridge →
      smart_infer chain a (b :: rest)
        = .ok (if b = 1 then .WormholeTokenTransfer
               else if b = 2 then .WormholeAssetMeta
               else if b = 3 then .WormholeTokenTransferPayload
               else .RawBytes)) ∧
    (registryRole a = some .NftBridge →
      smart_infer chain a (b :: rest)
        = .ok (if b = 1 then .WormholeNftTransfer else .RawBytes)) := by
  refine ⟨fun _ => rfl, ?_, ?_, ?_, ?_⟩
  · intro h
    unfold registryRole at h
    cases hf : emitterEntryFor (strToLower (hexEncode a)) with
    | none => simp [smart_infer, hf]
    | some kv => rw [hf] at h; simp at h
  · intro h
    unfold registryRole at h
    cases hf : emitterEntryFor (strToLower (hexEncode a)) with
    | none => rw [hf] at h; simp at h
    | some kv =>
      rw [hf] at h
      simp at h
      simp [smart_infer, hf, h]
  · intro h
    unfold registryRole at h
    cases hf : emitterEntryFor (strToLower (hexEncode a)) with
    | none => rw [hf] at h; simp at h
    | some kv =>
      rw [hf] at h
      simp at h
      simp [smart_infer, hf, h]
  · intro h
    unfold registryRole at h
    cases hf : emitterEntryFor (strToLower (hexEncode a)) with
    | none => rw [hf] at h; simp at h
    | some kv =>
      rw [hf] at h
      simp at h
      simp [smart_infer, hf, h]

/-- Witness for C7 amended: the padded Ethereum TokenBridge address with
payload first byte 1 classifies as a Wormhole token transfer, for an
arbitrary chain argument. -/
theorem classify_address_only_instance :
    smart_infer (.Inner .Ethereum)
        (padded_address_bytes ("3ee18B2214AFF97000D974cf647E7C347E8fa585".data)) [1]
      = .ok .WormholeTokenTransfer := by
  exact (classify_address_only_characterization (.Inner .Ethereum)
    (padded_address_bytes ("3ee18B2214AFF97000D974cf647E7C347E8fa585".data)) 1 []).2.2.2.1
    (by decide)

/-- `takeExact 1` on a non-empty buffer always yields the head. -/
theorem takeExact_one_cons (b : Nat) (l : List Nat) :
    takeExact 1 (b :: l) = some ([b], l) := by
  simp [takeExact]

/-- The big-endian value of a single byte is the byte. -/
theorem beNat_single (b : Nat) : beNat [b] = b := by simp [beNat]

/-- C8 amended: a buffer shorter than the 6-byte minimum header fails with
an explicit error and never reads out of bounds, but the error is
`TruncatedVaa` only when the buffer is empty or its first byte is the
supported version 1; a non-empty short buffer with any other first byte
fails with `MalformedVaa`, because the version byte is read and checked
before the rest of the header. -/
theorem parse_vaa_short_buffer_errors (bs : List Nat) (h : bs.length < 6) :
    parse_vaa bs
      = .error (match bs with
          | [] => VaaError.TruncatedVaa
          | b :: _ =>
            if b = 1 then VaaError.TruncatedVaa else VaaError.MalformedVaa) := by
  rcases bs with _ | ⟨b, rest⟩
  · rfl
  · by_cases hb : b = 1
    · subst hb
      rcases rest with _ | ⟨a1, r1⟩
      · rfl
      rcases r1 with _ | ⟨a2, r2⟩
      · rfl
      rcases r2 with _ | ⟨a3, r3⟩
      · rfl
      rcases r3 with _ | ⟨a4, r4⟩
      · rfl
      rcases r4 with _ | ⟨a5, r5⟩
      · rfl
      · simp only [List.length_cons] at h
        omega
    · simp only [parse_vaa, takeExact_one_cons, beNat_single]
      rw [if_pos hb, if_neg hb]

/-- Witness for C8 amended: a 4-byte buffer starting with version 1 is
shorter than the minimum header and fails with `TruncatedVaa`. -/
theorem parse_vaa_short_buffer_instance :
    ([1, 0, 0, 0] : List Nat).length < 6 ∧
    parse_vaa [1, 0, 0, 0] = .error .TruncatedVaa :=
  ⟨by decide, parse_vaa_short_buffer_errors [1, 0, 0, 0] (by decide)⟩
